import Mathlib

/-!
Verification of the rabbitmq-lite library (src/lib/Publisher.ts, which inlines
RabbitMQClient.ts, and src/lib/RabbitMQConnection.ts) against its
natural-language specification.

The broker protocol itself and JSON serialization are external collaborators
(spec §1); they are modelled abstractly.  Every operation the client issues on
its channel is recorded as a `ChanOp` event, and the functions below compute
the event trace a call produces, mirroring the TypeScript control flow.
-/

set_option autoImplicit false

namespace RabbitLite

/-- Messages handed to the client are JSON-serializable values.  JSON
serialization is out of scope (spec §1), so a message is modelled by its
serialized text; `jsonStringify` is the designated `JSON.stringify`. -/
structure Json where
  raw : String
deriving DecidableEq, Repr

/-- Models `Buffer.from(JSON.stringify(message))`: the byte payload of a
message (bytes modelled as the serialized string). -/
def jsonStringify (m : Json) : String := m.raw

/-- A header value: AMQP headers in this library hold numbers (`x-delay`,
retry counter) and strings (last error description). -/
inductive HVal where
  | int (n : Int)
  | str (s : String)
deriving DecidableEq, Repr

/-- A JS object of header entries.  Lookup takes the first matching key. -/
abbrev Headers := List (String × HVal)

/-- Models the JS spread `\x7b...a, ...b\x7d`: entries of `b` override entries
of `a`.  Lookup finds the first match, so `b` is placed in front. -/
def spread (a b : Headers) : Headers := b ++ a

/-- Lookup of a header key (first match wins, matching JS object semantics
under `spread`). -/
def hget (hs : Headers) (k : String) : Option HVal := hs.lookup k

/-- The `Options` type of RabbitMQClient.ts: all fields optional; an absent
field is `none`. -/
structure Options where
  exchange : Option String := none
  routingKey : Option String := none
  persistent : Option Bool := none
  delay : Option Int := none
  exchangeType : Option String := none
  headers : Option Headers := none
deriving DecidableEq, Repr

/-- The result of `\x7b...defaultOptions, ...options\x7d` in `publish` /
`sendToQueue`: every field of `defaultOptions` is present, and a field
supplied by the caller overrides the default. -/
structure MergedOptions where
  exchange : String
  routingKey : String
  delay : Int
  exchangeType : String
  headers : Headers
  persistent : Option Bool
deriving DecidableEq, Repr

/-- Spread of the caller's `options` over `defaultOptions` as written in the
source: defaults are `exchange = "Exchange_" ++ queue`, `routingKey = queue`,
`delay = 0`, `exchangeType = "direct"`, `headers = \x7b\x7d`; a caller-supplied
field wins. -/
def mergedOptions (queue : String) (o : Options) : MergedOptions :=
  { exchange := o.exchange.getD ("Exchange_" ++ queue)
    routingKey := o.routingKey.getD queue
    delay := o.delay.getD 0
    exchangeType := o.exchangeType.getD "direct"
    headers := o.headers.getD []
    persistent := o.persistent }

/-- One operation issued on the AMQP channel. -/
inductive ChanOp where
  | assertExchange (name ty : String) (durable : Bool) (delayedType : String)
  | assertQueue (name : String) (durable : Bool)
  | bindQueue (queue exchange routingKey : String)
  | basicPublish (exchange routingKey : String) (payload : String) (headers : Headers)
  | basicSendToQueue (queue : String) (payload : String) (options : Options)
deriving DecidableEq, Repr

/-- Payloads carried by the publish-type operations of a channel trace. -/
def payloads (ops : List ChanOp) : List String :=
  ops.filterMap (fun op => match op with
    | ChanOp.basicPublish _ _ p _ => some p
    | ChanOp.basicSendToQueue _ p _ => some p
    | _ => none)

namespace RabbitMQClient

/-- RabbitMQClient.publish: with no channel it throws
"Cannot publish: RabbitMQ channel not initialized"; otherwise it merges
options, asserts the delayed exchange, asserts the queue, binds them, and
publishes the JSON payload through the delayed exchange with an `x-delay`
header. -/
def publish (channelOpen : Bool) (queue : String) (message : Json)
    (options : Options) : Except String (List ChanOp) :=
  if !channelOpen then
    .error "Cannot publish: RabbitMQ channel not initialized"
  else
    let m := mergedOptions queue options
    .ok [ .assertExchange (m.exchange ++ "-delayed") "x-delayed-message" true m.exchangeType
        , .assertQueue queue true
        , .bindQueue queue (m.exchange ++ "-delayed") m.routingKey
        , .basicPublish (m.exchange ++ "-delayed") m.routingKey (jsonStringify message)
            (spread m.headers [("x-delay", .int m.delay)]) ]

/-- RabbitMQClient.sendToQueue: with no channel it throws
"Cannot send to queue: RabbitMQ channel not initialized"; otherwise it asserts
the queue, merges options, and either routes through the delayed exchange
(when `mergedOptions.delay && mergedOptions.delay > 0`) or sends the payload
directly to the queue with the caller's raw options. -/
def sendToQueue (channelOpen : Bool) (queue : String) (message : Json)
    (options : Options) : Except String (List ChanOp) :=
  if !channelOpen then
    .error "Cannot send to queue: RabbitMQ channel not initialized"
  else
    let m := mergedOptions queue options
    if m.delay ≠ 0 ∧ m.delay > 0 then
      let delayHeaders : Headers := [("x-delay", .int m.delay)]
      let mergedHeader : Headers :=
        match options.headers with
        | some hs => spread hs delayHeaders
        | none => delayHeaders
      .ok [ .assertQueue queue true
          , .assertExchange (m.exchange ++ "-delayed") "x-delayed-message" true m.exchangeType
          , .bindQueue queue (m.exchange ++ "-delayed") m.routingKey
          , .basicPublish (m.exchange ++ "-delayed") m.routingKey (jsonStringify message)
              mergedHeader ]
    else
      .ok [ .assertQueue queue true
          , .basicSendToQueue queue (jsonStringify message) options ]

/-- Local state of a RabbitMQClient instance relevant to `close`: whether the
instance channel, the class-level connection, the connected flag and the
stored connection-lost callback are present. -/
structure CloseState where
  channel : Bool
  connection : Bool
  isConnected : Bool
  connectionLostCallback : Bool
deriving DecidableEq, Repr

/-- A teardown event of `close`. -/
inductive CloseOp where
  | closeChannel
  | closeConnection
deriving DecidableEq, Repr

/-- RabbitMQClient.close on its success path: closes the channel if present,
then the class-level connection if present, nulls both and clears the
connected flag.  The stored connection-lost callback is not touched. -/
def close (c : CloseState) : List CloseOp × CloseState :=
  ( (if c.channel then [CloseOp.closeChannel] else [])
      ++ (if c.connection then [CloseOp.closeConnection] else [])
  , { channel := false
      connection := false
      isConnected := false
      connectionLostCallback := c.connectionLostCallback } )

end RabbitMQClient

namespace Publisher

/-- Lazy-cache state of a Publisher instance: `_rabbitMQClient`, holding the
identity of the cached shared client (clients identified by a number). -/
structure State where
  cached : Option Nat
deriving DecidableEq, Repr

/-- The `rabbitMQClient` getter of Publisher.ts composed with
RabbitMQConnection.getClient: `globalClient` is the Connection Manager's
current client (or `none`).  On first access the shared client is fetched and
cached (throwing if none exists); afterwards the cached instance is returned
without consulting the Connection Manager. -/
def getClient (globalClient : Option Nat) (p : State) :
    Except String (Nat × State) :=
  match p.cached with
  | some c => .ok (c, p)
  | none =>
    match globalClient with
    | none => .error "RabbitMQ client not initialized. Call connect before accessing the client."
    | some c => .ok (c, { cached := some c })

end Publisher

namespace Consumer

/-- Modelled from the spec: the Consumer base-class retry policy
(`retry: bool = true`, `retry_count: int = 3`, `retry_delay: int = 0`,
spec §4.3).  Consumer.ts itself is not under src/. -/
structure ConsumerOptions where
  retry : Bool := true
  retry_count : Int := 3
  retry_delay : Int := 0
deriving DecidableEq, Repr

/-- An action the consumer's delivery handler performs on the shared client:
acknowledge, negatively acknowledge, or publish a payload to a queue with
headers and a delay. -/
inductive Action where
  | ack
  | nack
  | publishTo (queue : String) (payload : String) (headers : Headers) (delay : Int)
deriving DecidableEq, Repr

/-- Modelled from the spec: the numeric retry-attempt counter read from the
delivery headers, "absent on first delivery" and defaulting to 0 (spec §3,
§4.3); the header key name is not prescribed, `x-retry-count` is used here. -/
def attemptCounter (hs : Headers) : Int :=
  match hget hs "x-retry-count" with
  | some (.int n) => n
  | _ => 0

/-- Modelled from the spec: the per-delivery handler of Consumer.consume
(Consumer.ts is not under src/), for a delivery whose payload parses as JSON.
Spec §4.3: on success acknowledge; on failure read the counter (default 0);
if retry is disabled or the counter ≥ retry_count, route the message to
`queueName_error` and acknowledge; otherwise increment the counter, record the
error description, publish to the same queue with the updated headers and the
configured delay, then acknowledge. -/
def handleDelivery (queueName : String) (opts : ConsumerOptions) (message : Json)
    (headers : Headers) (execOutcome : Except String Unit) : List Action :=
  match execOutcome with
  | .ok _ => [.ack]
  | .error err =>
    let attempt := attemptCounter headers
    if opts.retry = false ∨ attempt ≥ opts.retry_count then
      [.publishTo (queueName ++ "_error") (jsonStringify message) headers 0, .ack]
    else
      [.publishTo queueName (jsonStringify message)
          (spread headers [("x-retry-count", .int (attempt + 1)), ("x-last-error", .str err)])
          opts.retry_delay
      , .ack]

/-- Count of `ack` actions in a handler trace. -/
def ackCount (as : List Action) : Nat :=
  (as.filter (fun a => a = Action.ack)).length

/-- Count of `nack` actions in a handler trace. -/
def nackCount (as : List Action) : Nat :=
  (as.filter (fun a => a = Action.nack)).length

/-- Count of publishes to a given queue in a handler trace. -/
def publishCountTo (q : String) (as : List Action) : Nat :=
  (as.filter (fun a => match a with
    | Action.publishTo q' _ _ _ => q' = q
    | _ => false)).length

end Consumer

deriving instance DecidableEq for Except

namespace RabbitMQConnection

/-- An event of the start-all-consumers step: the consumer at an index was
invoked and either started or failed with a logged error. -/
inductive ConsumerEvent where
  | started (idx : Nat)
  | failed (idx : Nat) (err : String)
deriving DecidableEq, Repr

/-- Index of the consumer an event belongs to. -/
def ConsumerEvent.idx : ConsumerEvent → Nat
  | .started i => i
  | .failed i _ => i

/-- Loop body of RabbitMQConnection.startConsumers, starting at index `i`:
invoke each registered consumer's `consume` (its outcome given by the list
entry), catching a failure and continuing with the remaining consumers. -/
def startConsumersFrom (i : Nat) : List (Except String Unit) → List ConsumerEvent
  | [] => []
  | c :: rest =>
    (match c with
     | .ok _ => ConsumerEvent.started i
     | .error e => ConsumerEvent.failed i e) :: startConsumersFrom (i + 1) rest

/-- RabbitMQConnection.startConsumers: a consumer is represented by the
outcome of its `consume()` call; the for-loop wraps each call in try/catch,
so the step itself never throws and returns the full event list. -/
def startConsumers (cs : List (Except String Unit)) : List ConsumerEvent :=
  startConsumersFrom 0 cs

/-- The static state of RabbitMQConnection, with instrumentation counters for
Transport Client constructions and connect attempts.  `client = none` models
`rabbitMQClient = null`; `client = some live` models a constructed
RabbitMQClient whose `getConnectionStatus()` is `live`. -/
structure Shared where
  isConnecting : Bool
  isReconnecting : Bool
  connectionUrl : String
  client : Option Bool
  consumers : List (Except String Unit)
  events : List ConsumerEvent
  constructions : Nat
  attempts : Nat
  lostHandlerSet : Bool
deriving DecidableEq, Repr

/-- Program counter of one `connect(url, retryOnFail)` call, cut at the
`await` points of the source: `entry` is the synchronous prefix (lines 29-46),
`poll` one iteration of the 100 ms wait loop, `attemptStart` the client
construction, `attemptWait` the resolution of `client.connect()`,
`retrySleep` the 5000 ms backoff, `startCons` the start-all-consumers step,
and `done r` the call's return (or throw). -/
inductive PC where
  | entry
  | poll
  | attemptStart
  | attemptWait
  | retrySleep
  | startCons
  | done (r : Except String Unit)
deriving DecidableEq, Repr

/-- One atomic segment of `connect(url, retryOnFail)` run by one caller.
`oracle n` gives the outcome of the `n`-th `client.connect()` attempt
(`none` = success, `some e` = failure with error `e`). -/
def stepThread (oracle : Nat → Option String) (url : String) (retryOnFail : Bool)
    (s : Shared) (pc : PC) : Shared × PC :=
  match pc with
  | .entry =>
    if s.isConnecting then (s, .poll)
    else
      let s1 := { s with connectionUrl := url }
      if s1.client = some true then (s1, .done (.ok ()))
      else ({ s1 with isConnecting := true }, .attemptStart)
  | .poll => if s.isConnecting then (s, .poll) else (s, .done (.ok ()))
  | .attemptStart =>
    ({ s with client := some false, constructions := s.constructions + 1 }, .attemptWait)
  | .attemptWait =>
    match oracle s.attempts with
    | none =>
      ({ s with attempts := s.attempts + 1, client := some true,
                lostHandlerSet := true, isConnecting := false }, .startCons)
    | some e =>
      let s1 := { s with attempts := s.attempts + 1, client := none }
      if retryOnFail then (s1, .retrySleep)
      else ({ s1 with isConnecting := false }, .done (.error e))
  | .retrySleep => (s, .attemptStart)
  | .startCons =>
    ( { s with events := s.events ++
          (if s.consumers.isEmpty then [] else startConsumers s.consumers) }
    , .done (.ok ()))
  | .done r => (s, .done r)

/-- Run one caller for a bounded number of segments (stops at `done`). -/
def runThread (oracle : Nat → Option String) (url : String) (retryOnFail : Bool) :
    Nat → Shared → PC → Shared × PC
  | 0, s, pc => (s, pc)
  | n + 1, s, pc =>
    match pc with
    | .done r => (s, .done r)
    | _ =>
      let sp := stepThread oracle url retryOnFail s pc
      runThread oracle url retryOnFail n sp.1 sp.2

/-- Two callers A and B racing `connect` on the shared static state. -/
structure Config where
  shared : Shared
  pcA : PC
  pcB : PC
deriving DecidableEq, Repr

/-- One scheduler step: `choice = false` runs a segment of caller A,
`choice = true` runs a segment of caller B. -/
def stepConfig (oracle : Nat → Option String) (url : String) (rA rB : Bool)
    (c : Config) (choice : Bool) : Config :=
  if choice then
    let sp := stepThread oracle url rB c.shared c.pcB
    { c with shared := sp.1, pcB := sp.2 }
  else
    let sp := stepThread oracle url rA c.shared c.pcA
    { c with shared := sp.1, pcA := sp.2 }

/-- Run a schedule of interleaved segments of the two callers. -/
def runConfig (oracle : Nat → Option String) (url : String) (rA rB : Bool) :
    Config → List Bool → Config
  | c, [] => c
  | c, ch :: rest => runConfig oracle url rA rB (stepConfig oracle url rA rB c ch) rest

/-- A pair of concurrent `connect(url)` calls: caller A runs its synchronous
prefix first, then caller B runs its synchronous prefix while A's attempt is
in flight (in the event loop a call's prefix up to `isConnecting = true` runs
without an intervening await). -/
def concurrentStart (oracle : Nat → Option String) (url : String) (rA rB : Bool)
    (s0 : Shared) : Config :=
  stepConfig oracle url rA rB
    (stepConfig oracle url rA rB { shared := s0, pcA := .entry, pcB := .entry } false) true

end RabbitMQConnection

/-! ### Theorems -/

/-- Helper: appending the nonempty suffix "_error" always changes a string,
so the dead-letter queue is never the original queue. -/
lemma append_error_ne (q : String) : q ++ "_error" ≠ q := by
  intro h
  have hlen := congrArg String.length h
  simp [String.length_append] at hlen
  exact absurd hlen (by decide)

/-- Claim C4: RabbitMQClient.publish and RabbitMQClient.sendToQueue both
serialize the message to a byte payload via JSON encoding (the sole payload of
every execution path, including sendToQueue's non-delayed path, equals
`jsonStringify message`), and their effective options are the merge of the
caller's options over the defaults `exchange = "Exchange_" ++ queue`,
`routingKey = queue`, `delay = 0`, `exchangeType = "direct"`,
`headers = empty`, with caller-supplied keys taking precedence. -/
theorem publish_and_sendToQueue_serialize_and_merge
    (queue : String) (message : Json) (o : Options) :
    (∃ ops, RabbitMQClient.publish true queue message o = .ok ops ∧
        payloads ops = [jsonStringify message]) ∧
    (∃ ops, RabbitMQClient.sendToQueue true queue message o = .ok ops ∧
        payloads ops = [jsonStringify message]) ∧
    (o.exchange = none → (mergedOptions queue o).exchange = "Exchange_" ++ queue) ∧
    (∀ e, o.exchange = some e → (mergedOptions queue o).exchange = e) ∧
    (o.routingKey = none → (mergedOptions queue o).routingKey = queue) ∧
    (∀ k, o.routingKey = some k → (mergedOptions queue o).routingKey = k) ∧
    (o.delay = none → (mergedOptions queue o).delay = 0) ∧
    (∀ d, o.delay = some d → (mergedOptions queue o).delay = d) ∧
    (o.exchangeType = none → (mergedOptions queue o).exchangeType = "direct") ∧
    (∀ t, o.exchangeType = some t → (mergedOptions queue o).exchangeType = t) ∧
    (o.headers = none → (mergedOptions queue o).headers = []) ∧
    (∀ hs, o.headers = some hs → (mergedOptions queue o).headers = hs) := by
  constructor
  · simp [RabbitMQClient.publish, payloads]
  constructor
  · by_cases hd : (mergedOptions queue o).delay ≠ 0 ∧ (mergedOptions queue o).delay > 0
    · cases ho : o.headers <;>
        simp [RabbitMQClient.sendToQueue, hd, ho, payloads]
    · simp [RabbitMQClient.sendToQueue, hd, payloads]
  refine ⟨?_, ?_, ?_, ?_, ?_, ?_, ?_, ?_, ?_, ?_⟩
  all_goals
    first
      | (intro h; simp [mergedOptions, h])
      | (intro x h; simp [mergedOptions, h])

/-- Claim C4 witness: the properties at a concrete call. -/
theorem publish_and_sendToQueue_serialize_and_merge_witness :
    (∃ ops, RabbitMQClient.publish true "q" ⟨"1"⟩ { exchange := some "E" } = .ok ops ∧
        payloads ops = [jsonStringify ⟨"1"⟩]) ∧
    (∃ ops, RabbitMQClient.sendToQueue true "q" ⟨"1"⟩ { exchange := some "E" } = .ok ops ∧
        payloads ops = [jsonStringify ⟨"1"⟩]) ∧
    (Options.exchange { exchange := some "E" } = none →
      (mergedOptions "q" { exchange := some "E" }).exchange = "Exchange_" ++ "q") ∧
    (∀ e, Options.exchange { exchange := some "E" } = some e →
      (mergedOptions "q" { exchange := some "E" }).exchange = e) ∧
    (Options.routingKey { exchange := some "E" } = none →
      (mergedOptions "q" { exchange := some "E" }).routingKey = "q") ∧
    (∀ k, Options.routingKey { exchange := some "E" } = some k →
      (mergedOptions "q" { exchange := some "E" }).routingKey = k) ∧
    (Options.delay { exchange := some "E" } = none →
      (mergedOptions "q" { exchange := some "E" }).delay = 0) ∧
    (∀ d, Options.delay { exchange := some "E" } = some d →
      (mergedOptions "q" { exchange := some "E" }).delay = d) ∧
    (Options.exchangeType { exchange := some "E" } = none →
      (mergedOptions "q" { exchange := some "E" }).exchangeType = "direct") ∧
    (∀ t, Options.exchangeType { exchange := some "E" } = some t →
      (mergedOptions "q" { exchange := some "E" }).exchangeType = t) ∧
    (Options.headers { exchange := some "E" } = none →
      (mergedOptions "q" { exchange := some "E" }).headers = []) ∧
    (∀ hs, Options.headers { exchange := some "E" } = some hs →
      (mergedOptions "q" { exchange := some "E" }).headers = hs) :=
  publish_and_sendToQueue_serialize_and_merge "q" ⟨"1"⟩ { exchange := some "E" }

/-- Claim C5: with an open channel, publish always asserts the durable
delayed exchange named from the effective exchange, binds the queue to it and
publishes through it with an `x-delay` header equal to the effective delay;
sendToQueue routes through the delayed exchange exactly when the effective
delay is strictly positive (with the same `x-delay` header) and otherwise
sends the serialized message directly to the queue; in every trace the queue
is asserted durable before the send operation. -/
theorem publish_always_delayed_sendToQueue_conditionally
    (queue : String) (message : Json) (o : Options) :
    (∃ hs, RabbitMQClient.publish true queue message o =
        .ok [ .assertExchange ((mergedOptions queue o).exchange ++ "-delayed")
                "x-delayed-message" true (mergedOptions queue o).exchangeType
            , .assertQueue queue true
            , .bindQueue queue ((mergedOptions queue o).exchange ++ "-delayed")
                (mergedOptions queue o).routingKey
            , .basicPublish ((mergedOptions queue o).exchange ++ "-delayed")
                (mergedOptions queue o).routingKey (jsonStringify message) hs ]
      ∧ hget hs "x-delay" = some (.int (mergedOptions queue o).delay)) ∧
    ((mergedOptions queue o).delay > 0 →
      ∃ hs, RabbitMQClient.sendToQueue true queue message o =
        .ok [ .assertQueue queue true
            , .assertExchange ((mergedOptions queue o).exchange ++ "-delayed")
                "x-delayed-message" true (mergedOptions queue o).exchangeType
            , .bindQueue queue ((mergedOptions queue o).exchange ++ "-delayed")
                (mergedOptions queue o).routingKey
            , .basicPublish ((mergedOptions queue o).exchange ++ "-delayed")
                (mergedOptions queue o).routingKey (jsonStringify message) hs ]
      ∧ hget hs "x-delay" = some (.int (mergedOptions queue o).delay)) ∧
    (¬ (mergedOptions queue o).delay > 0 →
      RabbitMQClient.sendToQueue true queue message o =
        .ok [ .assertQueue queue true
            , .basicSendToQueue queue (jsonStringify message) o ]) := by
  refine ⟨⟨_, rfl, ?_⟩, ?_, ?_⟩
  · simp [hget, spread]
  · intro hpos
    have hd : (mergedOptions queue o).delay ≠ 0 ∧ (mergedOptions queue o).delay > 0 :=
      ⟨by omega, hpos⟩
    cases ho : o.headers with
    | none =>
      refine ⟨[("x-delay", HVal.int (mergedOptions queue o).delay)], ?_, ?_⟩
      · simp [RabbitMQClient.sendToQueue, hd, ho]
      · rfl
    | some hs =>
      refine ⟨spread hs [("x-delay", HVal.int (mergedOptions queue o).delay)], ?_, ?_⟩
      · simp [RabbitMQClient.sendToQueue, hd, ho]
      · rfl
  · intro hnpos
    have hd : ¬ ((mergedOptions queue o).delay ≠ 0 ∧ (mergedOptions queue o).delay > 0) := by
      intro h; exact hnpos h.2
    simp [RabbitMQClient.sendToQueue, hd]

/-- Claim C5 witness: the delayed and non-delayed paths at concrete calls. -/
theorem publish_always_delayed_sendToQueue_conditionally_witness :
    (∃ hs, RabbitMQClient.sendToQueue true "q" ⟨"1"⟩ { delay := some 3 } =
        .ok [ .assertQueue "q" true
            , .assertExchange ((mergedOptions "q" { delay := some 3 }).exchange ++ "-delayed")
                "x-delayed-message" true (mergedOptions "q" { delay := some 3 }).exchangeType
            , .bindQueue "q" ((mergedOptions "q" { delay := some 3 }).exchange ++ "-delayed")
                (mergedOptions "q" { delay := some 3 }).routingKey
            , .basicPublish ((mergedOptions "q" { delay := some 3 }).exchange ++ "-delayed")
                (mergedOptions "q" { delay := some 3 }).routingKey (jsonStringify ⟨"1"⟩) hs ]
      ∧ hget hs "x-delay" = some (.int (mergedOptions "q" { delay := some 3 }).delay)) ∧
    (¬ (mergedOptions "q" { }).delay > 0 →
      RabbitMQClient.sendToQueue true "q" ⟨"1"⟩ { } =
        .ok [ .assertQueue "q" true
            , .basicSendToQueue "q" (jsonStringify ⟨"1"⟩) { } ]) :=
  ⟨(publish_always_delayed_sendToQueue_conditionally "q" ⟨"1"⟩ { delay := some 3 }).2.1
      (by decide),
   (publish_always_delayed_sendToQueue_conditionally "q" ⟨"1"⟩ { }).2.2⟩

/-- Helper for C8: element-wise characterization of the startConsumers loop
from an arbitrary start index. -/
lemma startConsumersFrom_get? (cs : List (Except String Unit)) :
    ∀ (i j : Nat),
      (RabbitMQConnection.startConsumersFrom i cs).get? j =
        (cs.get? j).map (fun c => match c with
          | .ok _ => RabbitMQConnection.ConsumerEvent.started (i + j)
          | .error e => RabbitMQConnection.ConsumerEvent.failed (i + j) e) := by
  induction cs with
  | nil => intro i j; simp [RabbitMQConnection.startConsumersFrom]
  | cons c rest ih =>
    intro i j
    cases j with
    | zero => cases c <;> simp [RabbitMQConnection.startConsumersFrom]
    | succ j =>
      have := ih (i + 1) j
      simpa [RabbitMQConnection.startConsumersFrom, Nat.add_assoc, Nat.add_comm 1 j] using this

/-- Helper for C8: the loop produces one event per registered consumer. -/
lemma startConsumersFrom_length (cs : List (Except String Unit)) :
    ∀ i, (RabbitMQConnection.startConsumersFrom i cs).length = cs.length := by
  induction cs with
  | nil => intro i; simp [RabbitMQConnection.startConsumersFrom]
  | cons c rest ih => intro i; simp [RabbitMQConnection.startConsumersFrom, ih]

/-- Claim C8: the start-all-consumers step produces exactly one event per
registered consumer, in registration order: the event at position `j` belongs
to consumer `j` and records its own outcome, a failure is caught as a
`failed` event (the step itself returns normally), and a failure at position
`j` does not remove or change the events of any later consumer. -/
theorem startConsumers_each_once_in_order_errors_caught
    (cs : List (Except String Unit)) :
    (RabbitMQConnection.startConsumers cs).length = cs.length ∧
    ∀ j, (RabbitMQConnection.startConsumers cs).get? j =
      (cs.get? j).map (fun c => match c with
        | .ok _ => RabbitMQConnection.ConsumerEvent.started j
        | .error e => RabbitMQConnection.ConsumerEvent.failed j e) := by
  refine ⟨startConsumersFrom_length cs 0, fun j => ?_⟩
  simpa using startConsumersFrom_get? cs 0 j

/-- Claim C9 counterexample: RabbitMQClient.close does not clear the stored
connection-lost callback, contrary to the claim that all local state
(including the callback) is cleared after a normal return. -/
theorem close_does_not_clear_callback :
    (RabbitMQClient.close
        { channel := true, connection := true, isConnected := true,
          connectionLostCallback := true }).2.connectionLostCallback ≠ false := by
  decide

/-- Claim C9 (amended): close closes the channel before the connection,
returns normally when either or both components are already null, and after a
normal return the channel is null, the class-level connection is null and the
connected flag is false; the stored connection-lost callback, however, is
retained unchanged. -/
theorem close_clears_state_but_retains_callback (c : RabbitMQClient.CloseState) :
    (c.channel = true →
      (RabbitMQClient.close c).1.head? = some RabbitMQClient.CloseOp.closeChannel) ∧
    (c.connection = true →
      (RabbitMQClient.close c).1.getLast? = some RabbitMQClient.CloseOp.closeConnection) ∧
    (c.channel = false → c.connection = false → (RabbitMQClient.close c).1 = []) ∧
    (RabbitMQClient.close c).2.channel = false ∧
    (RabbitMQClient.close c).2.connection = false ∧
    (RabbitMQClient.close c).2.isConnected = false ∧
    (RabbitMQClient.close c).2.connectionLostCallback = c.connectionLostCallback := by
  obtain ⟨ch, co, ic, cb⟩ := c
  cases ch <;> cases co <;> cases ic <;> cases cb <;> decide

/-- Claim C9 witness: the amended properties at a concrete client state. -/
theorem close_clears_state_but_retains_callback_witness :
    (RabbitMQClient.close
        { channel := true, connection := true, isConnected := true,
          connectionLostCallback := true }).1.head?
      = some RabbitMQClient.CloseOp.closeChannel ∧
    (RabbitMQClient.close
        { channel := true, connection := true, isConnected := true,
          connectionLostCallback := true }).2.connectionLostCallback = true :=
  ⟨(close_clears_state_but_retains_callback
      { channel := true, connection := true, isConnected := true,
        connectionLostCallback := true }).1 rfl,
   (close_clears_state_but_retains_callback
      { channel := true, connection := true, isConnected := true,
        connectionLostCallback := true }).2.2.2.2.2.2⟩

/-- Claim C10: the first access to a Publisher's rabbitMQClient getter
fetches the shared client and caches it, and every later access returns the
cached instance unchanged for an arbitrary current state of the Connection
Manager — in particular after the manager discarded the client (`none`) or
replaced it with a new one (`some d`), the stale cached client is still
returned. -/
theorem publisher_client_cached_and_never_invalidated (c : Nat) (g2 : Option Nat) :
    Publisher.getClient (some c) { cached := none } =
      .ok (c, { cached := some c }) ∧
    Publisher.getClient g2 { cached := some c } =
      .ok (c, { cached := some c }) := by
  exact ⟨rfl, rfl⟩

/-- Claim C1: when execute fails on a parsed delivery, retry is enabled and
the attempt counter read from the headers (default 0) is strictly below
retry_count, the handler publishes the message back to the same queue exactly
once with the counter incremented by exactly 1 and the error description
recorded in the headers, and acknowledges exactly once — no nack, no
dead-letter publish. -/
theorem consumer_retry_path (q : String) (opts : Consumer.ConsumerOptions)
    (msg : Json) (hs : Headers) (err : String)
    (hretry : opts.retry = true)
    (hcount : Consumer.attemptCounter hs < opts.retry_count) :
    ∃ hs', Consumer.handleDelivery q opts msg hs (.error err) =
        [Consumer.Action.publishTo q (jsonStringify msg) hs' opts.retry_delay,
         Consumer.Action.ack] ∧
      Consumer.attemptCounter hs' = Consumer.attemptCounter hs + 1 ∧
      hget hs' "x-last-error" = some (.str err) ∧
      Consumer.ackCount (Consumer.handleDelivery q opts msg hs (.error err)) = 1 ∧
      Consumer.nackCount (Consumer.handleDelivery q opts msg hs (.error err)) = 0 ∧
      Consumer.publishCountTo q (Consumer.handleDelivery q opts msg hs (.error err)) = 1 ∧
      Consumer.publishCountTo (q ++ "_error")
        (Consumer.handleDelivery q opts msg hs (.error err)) = 0 := by
  have hcond : ¬ (opts.retry = false ∨ Consumer.attemptCounter hs ≥ opts.retry_count) := by
    rintro (h | h)
    · rw [hretry] at h; exact absurd h (by decide)
    · omega
  have heq : Consumer.handleDelivery q opts msg hs (.error err) =
      [Consumer.Action.publishTo q (jsonStringify msg)
         (spread hs [("x-retry-count", HVal.int (Consumer.attemptCounter hs + 1)),
                     ("x-last-error", HVal.str err)]) opts.retry_delay,
       Consumer.Action.ack] := by
    simp [Consumer.handleDelivery, hcond]
  refine ⟨_, heq, rfl, rfl, ?_, ?_, ?_, ?_⟩
  · rw [heq]; simp [Consumer.ackCount]
  · rw [heq]; simp [Consumer.nackCount]
  · rw [heq]; simp [Consumer.publishCountTo]
  · rw [heq]; simp [Consumer.publishCountTo, (append_error_ne q).symm]

/-- Claim C1 witness: a first failure with default options is republished
with counter 1. -/
theorem consumer_retry_path_witness :
    ∃ hs', Consumer.handleDelivery "q" { } ⟨"1"⟩ [] (.error "boom") =
        [Consumer.Action.publishTo "q" (jsonStringify ⟨"1"⟩) hs'
           (Consumer.ConsumerOptions.retry_delay { }),
         Consumer.Action.ack] ∧
      Consumer.attemptCounter hs' = Consumer.attemptCounter [] + 1 ∧
      hget hs' "x-last-error" = some (.str "boom") ∧
      Consumer.ackCount (Consumer.handleDelivery "q" { } ⟨"1"⟩ [] (.error "boom")) = 1 ∧
      Consumer.nackCount (Consumer.handleDelivery "q" { } ⟨"1"⟩ [] (.error "boom")) = 0 ∧
      Consumer.publishCountTo "q"
        (Consumer.handleDelivery "q" { } ⟨"1"⟩ [] (.error "boom")) = 1 ∧
      Consumer.publishCountTo ("q" ++ "_error")
        (Consumer.handleDelivery "q" { } ⟨"1"⟩ [] (.error "boom")) = 0 :=
  consumer_retry_path "q" { } ⟨"1"⟩ [] "boom" rfl (by decide)

/-- Claim C2: when execute fails and retry is disabled or the counter has
reached retry_count, the handler publishes the payload verbatim to the
`_error` queue exactly once and acknowledges exactly once; no nack and no
redelivery to the original queue. -/
theorem consumer_deadletter_path (q : String) (opts : Consumer.ConsumerOptions)
    (msg : Json) (hs : Headers) (err : String)
    (hfail : opts.retry = false ∨ Consumer.attemptCounter hs ≥ opts.retry_count) :
    Consumer.handleDelivery q opts msg hs (.error err) =
      [Consumer.Action.publishTo (q ++ "_error") (jsonStringify msg) hs 0,
       Consumer.Action.ack] ∧
    Consumer.ackCount (Consumer.handleDelivery q opts msg hs (.error err)) = 1 ∧
    Consumer.nackCount (Consumer.handleDelivery q opts msg hs (.error err)) = 0 ∧
    Consumer.publishCountTo (q ++ "_error")
      (Consumer.handleDelivery q opts msg hs (.error err)) = 1 ∧
    Consumer.publishCountTo q
      (Consumer.handleDelivery q opts msg hs (.error err)) = 0 := by
  have heq : Consumer.handleDelivery q opts msg hs (.error err) =
      [Consumer.Action.publishTo (q ++ "_error") (jsonStringify msg) hs 0,
       Consumer.Action.ack] := by
    simp [Consumer.handleDelivery, hfail]
  refine ⟨heq, ?_, ?_, ?_, ?_⟩
  · rw [heq]; simp [Consumer.ackCount]
  · rw [heq]; simp [Consumer.nackCount]
  · rw [heq]; simp [Consumer.publishCountTo]
  · rw [heq]; simp [Consumer.publishCountTo, append_error_ne q]

/-- Claim C2 witness: with retry disabled a failed delivery is dead-lettered
immediately. -/
theorem consumer_deadletter_path_witness :
    Consumer.handleDelivery "q" { retry := false } ⟨"1"⟩ [] (.error "boom") =
      [Consumer.Action.publishTo ("q" ++ "_error") (jsonStringify ⟨"1"⟩) [] 0,
       Consumer.Action.ack] ∧
    Consumer.ackCount
      (Consumer.handleDelivery "q" { retry := false } ⟨"1"⟩ [] (.error "boom")) = 1 ∧
    Consumer.nackCount
      (Consumer.handleDelivery "q" { retry := false } ⟨"1"⟩ [] (.error "boom")) = 0 ∧
    Consumer.publishCountTo ("q" ++ "_error")
      (Consumer.handleDelivery "q" { retry := false } ⟨"1"⟩ [] (.error "boom")) = 1 ∧
    Consumer.publishCountTo "q"
      (Consumer.handleDelivery "q" { retry := false } ⟨"1"⟩ [] (.error "boom")) = 0 :=
  consumer_deadletter_path "q" { retry := false } ⟨"1"⟩ [] "boom" (Or.inl rfl)

/-- Claim C6 counterexample: with a live client and no connect in flight,
`connect("amqp://new")` does return immediately, but it first overwrites the
stored connection URL, so the Connection Manager state is not unchanged. -/
theorem connect_overwrites_url_despite_live_client :
    (RabbitMQConnection.stepThread (fun _ => none) "amqp://new" true
        ⟨false, false, "amqp://old", some true, [], [], 0, 0, true⟩
        RabbitMQConnection.PC.entry).1.connectionUrl ≠ "amqp://old" ∧
    (RabbitMQConnection.stepThread (fun _ => none) "amqp://new" true
        ⟨false, false, "amqp://old", some true, [], [], 0, 0, true⟩
        RabbitMQConnection.PC.entry).2
      = RabbitMQConnection.PC.done (.ok ()) := by
  constructor
  · decide
  · decide

/-- Claim C6 (amended): with no connect in flight and a client reporting a
live connection and channel, `connect(url)` returns immediately in its
synchronous prefix; the client reference, registered consumer list, busy
flags, instrumentation counters and events are all unchanged — the one state
change is that the stored connection URL is overwritten with the argument. -/
theorem connect_noop_when_live_except_url (oracle : Nat → Option String)
    (url : String) (r : Bool) (s : RabbitMQConnection.Shared)
    (hnc : s.isConnecting = false) (hlive : s.client = some true) :
    (RabbitMQConnection.stepThread oracle url r s .entry).2
        = RabbitMQConnection.PC.done (.ok ()) ∧
    (RabbitMQConnection.stepThread oracle url r s .entry).1.connectionUrl = url ∧
    (RabbitMQConnection.stepThread oracle url r s .entry).1.client = s.client ∧
    (RabbitMQConnection.stepThread oracle url r s .entry).1.consumers = s.consumers ∧
    (RabbitMQConnection.stepThread oracle url r s .entry).1.events = s.events ∧
    (RabbitMQConnection.stepThread oracle url r s .entry).1.isConnecting = false ∧
    (RabbitMQConnection.stepThread oracle url r s .entry).1.isReconnecting
        = s.isReconnecting ∧
    (RabbitMQConnection.stepThread oracle url r s .entry).1.constructions
        = s.constructions ∧
    (RabbitMQConnection.stepThread oracle url r s .entry).1.attempts = s.attempts ∧
    (RabbitMQConnection.stepThread oracle url r s .entry).1.lostHandlerSet
        = s.lostHandlerSet := by
  simp [RabbitMQConnection.stepThread, hnc, hlive]

/-- Claim C6 witness: the amended no-op behavior at a concrete live state. -/
theorem connect_noop_when_live_except_url_witness :
    (RabbitMQConnection.stepThread (fun _ => none) "amqp://new" true
        ⟨false, false, "amqp://old", some true, [], [], 0, 0, true⟩ .entry).2
        = RabbitMQConnection.PC.done (.ok ()) ∧
    (RabbitMQConnection.stepThread (fun _ => none) "amqp://new" true
        ⟨false, false, "amqp://old", some true, [], [], 0, 0, true⟩ .entry).1.connectionUrl
        = "amqp://new" ∧
    (RabbitMQConnection.stepThread (fun _ => none) "amqp://new" true
        ⟨false, false, "amqp://old", some true, [], [], 0, 0, true⟩ .entry).1.client
        = RabbitMQConnection.Shared.client ⟨false, false, "amqp://old", some true, [], [], 0, 0, true⟩ ∧
    (RabbitMQConnection.stepThread (fun _ => none) "amqp://new" true
        ⟨false, false, "amqp://old", some true, [], [], 0, 0, true⟩ .entry).1.consumers
        = RabbitMQConnection.Shared.consumers ⟨false, false, "amqp://old", some true, [], [], 0, 0, true⟩ ∧
    (RabbitMQConnection.stepThread (fun _ => none) "amqp://new" true
        ⟨false, false, "amqp://old", some true, [], [], 0, 0, true⟩ .entry).1.events
        = RabbitMQConnection.Shared.events ⟨false, false, "amqp://old", some true, [], [], 0, 0, true⟩ ∧
    (RabbitMQConnection.stepThread (fun _ => none) "amqp://new" true
        ⟨false, false, "amqp://old", some true, [], [], 0, 0, true⟩ .entry).1.isConnecting
        = false ∧
    (RabbitMQConnection.stepThread (fun _ => none) "amqp://new" true
        ⟨false, false, "amqp://old", some true, [], [], 0, 0, true⟩ .entry).1.isReconnecting
        = RabbitMQConnection.Shared.isReconnecting ⟨false, false, "amqp://old", some true, [], [], 0, 0, true⟩ ∧
    (RabbitMQConnection.stepThread (fun _ => none) "amqp://new" true
        ⟨false, false, "amqp://old", some true, [], [], 0, 0, true⟩ .entry).1.constructions
        = RabbitMQConnection.Shared.constructions ⟨false, false, "amqp://old", some true, [], [], 0, 0, true⟩ ∧
    (RabbitMQConnection.stepThread (fun _ => none) "amqp://new" true
        ⟨false, false, "amqp://old", some true, [], [], 0, 0, true⟩ .entry).1.attempts
        = RabbitMQConnection.Shared.attempts ⟨false, false, "amqp://old", some true, [], [], 0, 0, true⟩ ∧
    (RabbitMQConnection.stepThread (fun _ => none) "amqp://new" true
        ⟨false, false, "amqp://old", some true, [], [], 0, 0, true⟩ .entry).1.lostHandlerSet
        = RabbitMQConnection.Shared.lostHandlerSet ⟨false, false, "amqp://old", some true, [], [], 0, 0, true⟩ :=
  connect_noop_when_live_except_url (fun _ => none) "amqp://new" true
    ⟨false, false, "amqp://old", some true, [], [], 0, 0, true⟩ rfl rfl

/-- Claim C7: a `connect(url, retryOnFail = false)` whose single Transport
Client connect attempt fails propagates that same error to the caller, and
afterwards the client reference is null and the connecting flag is cleared. -/
theorem connect_noretry_propagates_failure (oracle : Nat → Option String)
    (url : String) (s : RabbitMQConnection.Shared) (e : String)
    (hnc : s.isConnecting = false) (hnl : s.client ≠ some true)
    (hfail : oracle s.attempts = some e) :
    ∃ s', RabbitMQConnection.runThread oracle url false 3 s .entry =
        (s', RabbitMQConnection.PC.done (.error e)) ∧
      s'.client = none ∧ s'.isConnecting = false := by
  refine ⟨⟨false, s.isReconnecting, url, none, s.consumers, s.events,
      s.constructions + 1, s.attempts + 1, s.lostHandlerSet⟩, ?_, rfl, rfl⟩
  simp [RabbitMQConnection.runThread, RabbitMQConnection.stepThread, hnc, hnl, hfail]

/-- Claim C7 witness: a concrete failed non-retrying connect. -/
theorem connect_noretry_propagates_failure_witness :
    ∃ s', RabbitMQConnection.runThread (fun _ => some "boom") "amqp://x" false 3
        ⟨false, false, "", none, [], [], 0, 0, false⟩ .entry =
        (s', RabbitMQConnection.PC.done (.error "boom")) ∧
      s'.client = none ∧ s'.isConnecting = false :=
  connect_noretry_propagates_failure (fun _ => some "boom") "amqp://x"
    ⟨false, false, "", none, [], [], 0, 0, false⟩ "boom" rfl (by decide) rfl

namespace RabbitMQConnection

/-- The final configuration of a race of two `connect(url)` callers from an
initial manager state `s0` under a scheduler choice list. -/
def raceResult (oracle : Nat → Option String) (url : String) (rA rB : Bool)
    (s0 : Shared) (sched : List Bool) : Config :=
  runConfig oracle url rA rB (concurrentStart oracle url rA rB s0) sched

/-- Inductive invariant of the two-caller connect race: caller B never enters
the attempt region (it only polls or has returned), the `isConnecting` flag
marks exactly caller A's attempt region, B returns only after A's attempt
sequence resolved, and the shared client reflects A's outcome; when the first
connect attempt succeeds, exactly one Transport Client is ever constructed. -/
structure ConnectInv (rA : Bool) (oracle : Nat → Option String) (c : Config) : Prop where
  bSafe : c.pcB = PC.poll ∨ c.pcB = PC.done (.ok ())
  aRegion : c.pcA = PC.attemptStart ∨ c.pcA = PC.attemptWait ∨ c.pcA = PC.retrySleep ∨
      c.pcA = PC.startCons ∨ ∃ r, c.pcA = PC.done r
  connIff : c.shared.isConnecting = true ↔
      (c.pcA = PC.attemptStart ∨ c.pcA = PC.attemptWait ∨ c.pcA = PC.retrySleep)
  bDone : c.pcB = PC.done (.ok ()) →
      c.pcA = PC.startCons ∨ ∃ r, c.pcA = PC.done r
  okClient : c.pcA = PC.startCons ∨ c.pcA = PC.done (.ok ()) →
      c.shared.client = some true
  errClient : ∀ e, c.pcA = PC.done (.error e) → c.shared.client = none ∧ rA = false
  firstOk : oracle 0 = none →
      (c.pcA = PC.attemptStart → c.shared.constructions = 0 ∧ c.shared.attempts = 0) ∧
      (c.pcA = PC.attemptWait → c.shared.constructions = 1 ∧ c.shared.attempts = 0) ∧
      c.pcA ≠ PC.retrySleep ∧
      (∀ e, c.pcA ≠ PC.done (.error e)) ∧
      (c.pcA = PC.startCons ∨ c.pcA = PC.done (.ok ()) →
        c.shared.constructions = 1 ∧ c.shared.attempts = 1)

/-- The invariant holds at the concurrent start of two callers on a manager
that is not already connecting and has no live client. -/
lemma connectInv_init (oracle : Nat → Option String) (url : String) (rA rB : Bool)
    (s0 : Shared) (h1 : s0.isConnecting = false) (h2 : s0.client ≠ some true)
    (h3 : s0.constructions = 0) (h4 : s0.attempts = 0) :
    ConnectInv rA oracle (concurrentStart oracle url rA rB s0) := by
  have hcfg : concurrentStart oracle url rA rB s0 =
      ⟨⟨true, s0.isReconnecting, url, s0.client, s0.consumers, s0.events,
        s0.constructions, s0.attempts, s0.lostHandlerSet⟩, .attemptStart, .poll⟩ := by
    simp [concurrentStart, stepConfig, stepThread, h1, h2]
  rw [hcfg]
  refine ⟨Or.inl rfl, Or.inl rfl, by simp, fun hx => (nomatch hx),
          fun hx => ?_, fun e he => (nomatch he), fun _ => ?_⟩
  · rcases hx with h | h <;> exact nomatch h
  · refine ⟨fun _ => ⟨h3, h4⟩, fun h => (nomatch h), fun h => (nomatch h),
            fun e h => (nomatch h), fun hx => ?_⟩
    rcases hx with h | h <;> exact nomatch h

/-- One scheduler step preserves the race invariant. -/
lemma connectInv_step (oracle : Nat → Option String) (url : String) (rA rB : Bool)
    (c : Config) (ch : Bool) (h : ConnectInv rA oracle c) :
    ConnectInv rA oracle (stepConfig oracle url rA rB c ch) := by
  obtain ⟨hB, hA, hConn, hBdone, hClient, hErr, hO⟩ := h
  obtain ⟨s, pcA, pcB⟩ := c
  cases ch with
  | true =>
    rcases hB with hb | hb <;> subst hb
    · by_cases hc : s.isConnecting = true
      · have hcfg : stepConfig oracle url rA rB ⟨s, pcA, .poll⟩ true = ⟨s, pcA, .poll⟩ := by
          simp [stepConfig, stepThread, hc]
        rw [hcfg]
        exact ⟨Or.inl rfl, hA, hConn, fun hx => (nomatch hx), hClient, hErr, hO⟩
      · have hcfg : stepConfig oracle url rA rB ⟨s, pcA, .poll⟩ true =
            ⟨s, pcA, .done (.ok ())⟩ := by
          simp [stepConfig, stepThread, hc]
        rw [hcfg]
        have hAout : pcA = PC.startCons ∨ ∃ r, pcA = PC.done r := by
          rcases hA with h1 | h1 | h1 | h1 | h1
          · exact absurd (hConn.mpr (Or.inl h1)) hc
          · exact absurd (hConn.mpr (Or.inr (Or.inl h1))) hc
          · exact absurd (hConn.mpr (Or.inr (Or.inr h1))) hc
          · exact Or.inl h1
          · exact Or.inr h1
        exact ⟨Or.inr rfl, hA, hConn, fun _ => hAout, hClient, hErr, hO⟩
    · have hcfg : stepConfig oracle url rA rB ⟨s, pcA, .done (.ok ())⟩ true =
          ⟨s, pcA, .done (.ok ())⟩ := rfl
      rw [hcfg]
      exact ⟨Or.inr rfl, hA, hConn, hBdone, hClient, hErr, hO⟩
  | false =>
    rcases hA with ha | ha | ha | ha | ⟨r, ha⟩ <;> subst ha
    · -- A constructs the Transport Client
      have hcfg : stepConfig oracle url rA rB ⟨s, .attemptStart, pcB⟩ false =
          ⟨⟨s.isConnecting, s.isReconnecting, s.connectionUrl, some false, s.consumers,
            s.events, s.constructions + 1, s.attempts, s.lostHandlerSet⟩,
           .attemptWait, pcB⟩ := rfl
      rw [hcfg]
      have htrue : s.isConnecting = true := hConn.mpr (Or.inl rfl)
      refine ⟨hB, Or.inr (Or.inl rfl), by simp [htrue], ?_, ?_, fun e he => (nomatch he),
              fun hOr => ?_⟩
      · intro hb'
        rcases hBdone hb' with h1 | ⟨r, h1⟩ <;> exact nomatch h1
      · intro hx; rcases hx with h1 | h1 <;> exact nomatch h1
      · obtain ⟨f1, _, _, _, _⟩ := hO hOr
        obtain ⟨hc0, ha0⟩ := f1 rfl
        have hc0' : s.constructions = 0 := hc0
        refine ⟨fun h1 => (nomatch h1), fun _ => ⟨by simp [hc0'], ha0⟩, fun h1 => (nomatch h1),
                fun e h1 => (nomatch h1), fun hx => ?_⟩
        rcases hx with h1 | h1 <;> exact nomatch h1
    · -- A's connect attempt resolves
      rcases ho : oracle s.attempts with _ | e
      · -- attempt succeeds
        have hcfg : stepConfig oracle url rA rB ⟨s, .attemptWait, pcB⟩ false =
            ⟨⟨false, s.isReconnecting, s.connectionUrl, some true, s.consumers,
              s.events, s.constructions, s.attempts + 1, true⟩, .startCons, pcB⟩ := by
          simp [stepConfig, stepThread, ho]
        rw [hcfg]
        refine ⟨hB, Or.inr (Or.inr (Or.inr (Or.inl rfl))), by simp, fun _ => Or.inl rfl,
                fun _ => rfl, fun e he => (nomatch he), fun hOr => ?_⟩
        obtain ⟨_, f2, _, _, _⟩ := hO hOr
        obtain ⟨hc1, ha0⟩ := f2 rfl
        have ha0' : s.attempts = 0 := ha0
        refine ⟨fun h1 => (nomatch h1), fun h1 => (nomatch h1), fun h1 => (nomatch h1),
                fun e h1 => (nomatch h1), fun _ => ⟨hc1, by simp [ha0']⟩⟩
      · -- attempt fails
        cases hra : rA with
        | true =>
          have hcfg : stepConfig oracle url true rB ⟨s, .attemptWait, pcB⟩ false =
              ⟨⟨s.isConnecting, s.isReconnecting, s.connectionUrl, none, s.consumers,
                s.events, s.constructions, s.attempts + 1, s.lostHandlerSet⟩,
               .retrySleep, pcB⟩ := by
            simp [stepConfig, stepThread, ho]
          rw [hcfg]
          have htrue : s.isConnecting = true := hConn.mpr (Or.inr (Or.inl rfl))
          refine ⟨hB, Or.inr (Or.inr (Or.inl rfl)), by simp [htrue], ?_, ?_,
                  fun e he => (nomatch he), fun hOr => ?_⟩
          · intro hb'
            rcases hBdone hb' with h1 | ⟨r, h1⟩ <;> exact nomatch h1
          · intro hx; rcases hx with h1 | h1 <;> exact nomatch h1
          · obtain ⟨_, f2, _, _, _⟩ := hO hOr
            obtain ⟨_, ha0⟩ := f2 rfl
            rw [ha0] at ho
            exact absurd (hOr.symm.trans ho) (by simp)
        | false =>
          have hcfg : stepConfig oracle url false rB ⟨s, .attemptWait, pcB⟩ false =
              ⟨⟨false, s.isReconnecting, s.connectionUrl, none, s.consumers,
                s.events, s.constructions, s.attempts + 1, s.lostHandlerSet⟩,
               .done (.error e), pcB⟩ := by
            simp [stepConfig, stepThread, ho]
          rw [hcfg]
          refine ⟨hB, Or.inr (Or.inr (Or.inr (Or.inr ⟨.error e, rfl⟩))), by simp,
                  fun _ => Or.inr ⟨.error e, rfl⟩, ?_, ?_, fun hOr => ?_⟩
          · intro hx
            rcases hx with h1 | h1
            · exact nomatch h1
            · simp at h1
          · intro e' he'
            exact ⟨rfl, rfl⟩
          · obtain ⟨_, f2, _, _, _⟩ := hO hOr
            obtain ⟨_, ha0⟩ := f2 rfl
            rw [ha0] at ho
            exact absurd (hOr.symm.trans ho) (by simp)
    · -- A sleeps before retrying
      have hcfg : stepConfig oracle url rA rB ⟨s, .retrySleep, pcB⟩ false =
          ⟨s, .attemptStart, pcB⟩ := rfl
      rw [hcfg]
      have htrue : s.isConnecting = true := hConn.mpr (Or.inr (Or.inr rfl))
      refine ⟨hB, Or.inl rfl, by simp [htrue], ?_, ?_, fun e he => (nomatch he),
              fun hOr => ?_⟩
      · intro hb'
        rcases hBdone hb' with h1 | ⟨r, h1⟩ <;> exact nomatch h1
      · intro hx; rcases hx with h1 | h1 <;> exact nomatch h1
      · obtain ⟨_, _, f3, _, _⟩ := hO hOr
        exact absurd rfl f3
    · -- A starts the registered consumers
      have hcfg : stepConfig oracle url rA rB ⟨s, .startCons, pcB⟩ false =
          ⟨⟨s.isConnecting, s.isReconnecting, s.connectionUrl, s.client, s.consumers,
            s.events ++ (if s.consumers.isEmpty then [] else startConsumers s.consumers),
            s.constructions, s.attempts, s.lostHandlerSet⟩, .done (.ok ()), pcB⟩ := rfl
      rw [hcfg]
      have hfalse : s.isConnecting = false := by
        cases hcv : s.isConnecting
        · rfl
        · rcases hConn.mp hcv with h1 | h1 | h1 <;> exact nomatch h1
      refine ⟨hB, Or.inr (Or.inr (Or.inr (Or.inr ⟨.ok (), rfl⟩))), by simp [hfalse],
              fun _ => Or.inr ⟨.ok (), rfl⟩, fun _ => hClient (Or.inl rfl), ?_,
              fun hOr => ?_⟩
      · intro e he
        simp at he
      · obtain ⟨_, _, _, _, f5⟩ := hO hOr
        obtain ⟨hc1, ha1⟩ := f5 (Or.inl rfl)
        refine ⟨fun h1 => (nomatch h1), fun h1 => (nomatch h1), fun h1 => (nomatch h1),
                fun e h1 => by simp at h1, fun _ => ⟨hc1, ha1⟩⟩
    · -- A has returned
      have hcfg : stepConfig oracle url rA rB ⟨s, .done r, pcB⟩ false =
          ⟨s, .done r, pcB⟩ := rfl
      rw [hcfg]
      exact ⟨hB, Or.inr (Or.inr (Or.inr (Or.inr ⟨r, rfl⟩))), hConn, hBdone, hClient,
             hErr, hO⟩

/-- The race invariant holds after any schedule. -/
lemma connectInv_run (oracle : Nat → Option String) (url : String) (rA rB : Bool)
    (sched : List Bool) (c : Config) (h : ConnectInv rA oracle c) :
    ConnectInv rA oracle (runConfig oracle url rA rB c sched) := by
  induction sched generalizing c with
  | nil => exact h
  | cons ch rest ih => exact ih _ (connectInv_step oracle url rA rB c ch h)

end RabbitMQConnection

/-- Claim C3: for two concurrent `connect` calls with the same URL on a
manager that is not already connecting and has no live client, under every
schedule the second caller never starts an attempt sequence of its own (it
only polls or has returned), it returns only once the first caller's attempt
sequence has resolved, and the shared client state it then observes is the
first caller's outcome (a live client on success, a discarded one on
failure); when the first connect attempt succeeds, exactly one Transport
Client is ever constructed and it is connected. -/
theorem connect_concurrent_calls_single_sequence
    (oracle : Nat → Option String) (url : String) (rA rB : Bool)
    (s0 : RabbitMQConnection.Shared) (sched : List Bool)
    (h1 : s0.isConnecting = false) (h2 : s0.client ≠ some true)
    (h3 : s0.constructions = 0) (h4 : s0.attempts = 0) :
    ((RabbitMQConnection.raceResult oracle url rA rB s0 sched).pcB
        = RabbitMQConnection.PC.poll ∨
     (RabbitMQConnection.raceResult oracle url rA rB s0 sched).pcB
        = RabbitMQConnection.PC.done (.ok ())) ∧
    ((RabbitMQConnection.raceResult oracle url rA rB s0 sched).pcB
        = RabbitMQConnection.PC.done (.ok ()) →
      (RabbitMQConnection.raceResult oracle url rA rB s0 sched).pcA
          = RabbitMQConnection.PC.startCons ∨
      ∃ r, (RabbitMQConnection.raceResult oracle url rA rB s0 sched).pcA
          = RabbitMQConnection.PC.done r) ∧
    (((RabbitMQConnection.raceResult oracle url rA rB s0 sched).pcA
        = RabbitMQConnection.PC.startCons ∨
      (RabbitMQConnection.raceResult oracle url rA rB s0 sched).pcA
        = RabbitMQConnection.PC.done (.ok ())) →
      (RabbitMQConnection.raceResult oracle url rA rB s0 sched).shared.client = some true) ∧
    (∀ e, (RabbitMQConnection.raceResult oracle url rA rB s0 sched).pcA
        = RabbitMQConnection.PC.done (.error e) →
      (RabbitMQConnection.raceResult oracle url rA rB s0 sched).shared.client = none) ∧
    (oracle 0 = none →
      ((RabbitMQConnection.raceResult oracle url rA rB s0 sched).pcA
          = RabbitMQConnection.PC.startCons ∨
       (RabbitMQConnection.raceResult oracle url rA rB s0 sched).pcA
          = RabbitMQConnection.PC.done (.ok ())) →
      (RabbitMQConnection.raceResult oracle url rA rB s0 sched).shared.constructions = 1 ∧
      (RabbitMQConnection.raceResult oracle url rA rB s0 sched).shared.client = some true) := by
  have hinv := RabbitMQConnection.connectInv_run oracle url rA rB sched _
    (RabbitMQConnection.connectInv_init oracle url rA rB s0 h1 h2 h3 h4)
  exact ⟨hinv.bSafe, hinv.bDone, hinv.okClient,
         fun e he => (hinv.errClient e he).1,
         fun hOr hx => ⟨((hinv.firstOk hOr).2.2.2.2 hx).1, hinv.okClient hx⟩⟩

/-- Claim C3 witness: a concrete race in which A connects successfully while
B polls and then returns. -/
theorem connect_concurrent_calls_single_sequence_witness :
    ((RabbitMQConnection.raceResult (fun _ => none) "amqp://x" true true
        ⟨false, false, "", none, [], [], 0, 0, false⟩ [false, true, false, true]).pcB
        = RabbitMQConnection.PC.poll ∨
     (RabbitMQConnection.raceResult (fun _ => none) "amqp://x" true true
        ⟨false, false, "", none, [], [], 0, 0, false⟩ [false, true, false, true]).pcB
        = RabbitMQConnection.PC.done (.ok ())) ∧
    ((RabbitMQConnection.raceResult (fun _ => none) "amqp://x" true true
        ⟨false, false, "", none, [], [], 0, 0, false⟩ [false, true, false, true]).pcB
        = RabbitMQConnection.PC.done (.ok ()) →
      (RabbitMQConnection.raceResult (fun _ => none) "amqp://x" true true
        ⟨false, false, "", none, [], [], 0, 0, false⟩ [false, true, false, true]).pcA
          = RabbitMQConnection.PC.startCons ∨
      ∃ r, (RabbitMQConnection.raceResult (fun _ => none) "amqp://x" true true
        ⟨false, false, "", none, [], [], 0, 0, false⟩ [false, true, false, true]).pcA
          = RabbitMQConnection.PC.done r) ∧
    (((RabbitMQConnection.raceResult (fun _ => none) "amqp://x" true true
        ⟨false, false, "", none, [], [], 0, 0, false⟩ [false, true, false, true]).pcA
        = RabbitMQConnection.PC.startCons ∨
      (RabbitMQConnection.raceResult (fun _ => none) "amqp://x" true true
        ⟨false, false, "", none, [], [], 0, 0, false⟩ [false, true, false, true]).pcA
        = RabbitMQConnection.PC.done (.ok ())) →
      (RabbitMQConnection.raceResult (fun _ => none) "amqp://x" true true
        ⟨false, false, "", none, [], [], 0, 0, false⟩
        [false, true, false, true]).shared.client = some true) ∧
    (∀ e, (RabbitMQConnection.raceResult (fun _ => none) "amqp://x" true true
        ⟨false, false, "", none, [], [], 0, 0, false⟩ [false, true, false, true]).pcA
        = RabbitMQConnection.PC.done (.error e) →
      (RabbitMQConnection.raceResult (fun _ => none) "amqp://x" true true
        ⟨false, false, "", none, [], [], 0, 0, false⟩
        [false, true, false, true]).shared.client = none) ∧
    ((fun (_ : Nat) => (none : Option String)) 0 = none →
      ((RabbitMQConnection.raceResult (fun _ => none) "amqp://x" true true
          ⟨false, false, "", none, [], [], 0, 0, false⟩ [false, true, false, true]).pcA
          = RabbitMQConnection.PC.startCons ∨
       (RabbitMQConnection.raceResult (fun _ => none) "amqp://x" true true
          ⟨false, false, "", none, [], [], 0, 0, false⟩ [false, true, false, true]).pcA
          = RabbitMQConnection.PC.done (.ok ())) →
      (RabbitMQConnection.raceResult (fun _ => none) "amqp://x" true true
          ⟨false, false, "", none, [], [], 0, 0, false⟩
          [false, true, false, true]).shared.constructions = 1 ∧
      (RabbitMQConnection.raceResult (fun _ => none) "amqp://x" true true
          ⟨false, false, "", none, [], [], 0, 0, false⟩
          [false, true, false, true]).shared.client = some true) :=
  connect_concurrent_calls_single_sequence (fun _ => none) "amqp://x" true true
    ⟨false, false, "", none, [], [], 0, 0, false⟩ [false, true, false, true]
    rfl (by decide) rfl rfl

end RabbitLite
